import Mathlib

/-!
# Verification of the FoodDetails screen
Shallow embedding of `src/src/pages/FoodDetails/index.tsx` from
`gostack-template-react-native-delivery`.

Modelling conventions:
* JS numbers that hold monetary amounts are embedded as `ℚ` (the screen only
  performs `+` and `*` on small decimal amounts); integer counters are `Int`.
* A JS number that may be `undefined`/`NaN` is embedded as `Option ℚ`, with
  `none` standing for the absent/NaN value; `jsAdd`/`jsMul` propagate it the
  way JS arithmetic propagates `NaN`.
* The component state `{} as Food` (all fields `undefined`) is `emptyFood`,
  so every `Food` field is an `Option`.  The API response for
  `GET /foods/{id}` has all fields present and is embedded as `FoodData`.
* Network requests are fire-and-forget in the source (the returned promise is
  discarded, no `await`, no `.then`/`.catch`), so a handler is embedded as a
  pure function returning the request it issues together with the new state;
  where a claim speaks about the outcome of the call, the outcome is passed
  as an explicit, necessarily unused, argument.
-/

namespace FoodDetails

/-- `interface Extra { id, name, value, quantity }` from the source. -/
structure Extra where
  id : Int
  name : String
  value : ℚ
  quantity : Int
deriving DecidableEq

/-- The component state field `food` of TS type `Food`: since the state is
initialised with `{} as Food`, every field may be `undefined`, hence the
`Option`s. -/
structure Food where
  id : Option Int
  name : Option String
  description : Option String
  price : Option ℚ
  image_url : Option String
  formattedPrice : Option String
  extras : Option (List Extra)
deriving DecidableEq

/-- `useState({} as Food)`: the initial food state, all fields `undefined`. -/
def emptyFood : Food :=
  ⟨none, none, none, none, none, none, none⟩

/-- The payload of a successful `GET /foods/{id}` response (`data` in
`loadFood`): all fields present, extras carried with whatever quantities the
server sent. -/
structure FoodData where
  id : Int
  name : String
  description : String
  price : ℚ
  image_url : String
  extras : List Extra
deriving DecidableEq

/-- Modelled from the spec: the currency formatter `formatValue`
(`src/utils/formatValue`, not present under `src/`) "takes a numeric amount,
returns a display string per one fixed locale/currency convention".  We fix
the Brazilian convention `R$ w,ff` with two decimal digits (thousand grouping
omitted); the argument `none` stands for the JS value `NaN`, which the JS
formatter renders as a non-numeric string. -/
def formatValue : Option ℚ → String
  | none => "R$ NaN"
  | some q =>
    let cents : Int := Rat.floor (q * 100)
    let sign : String := if cents < 0 then "-" else ""
    let n : Nat := cents.natAbs
    let whole : Nat := n / 100
    let frac : Nat := n % 100
    let fracStr : String := if frac < 10 then "0" ++ toString frac else toString frac
    "R$ " ++ sign ++ toString whole ++ "," ++ fracStr

/-- JS `+` where `none` is `undefined`/`NaN`: adding a missing operand yields
`NaN`, and `NaN` propagates. -/
def jsAdd : Option ℚ → Option ℚ → Option ℚ
  | some a, some b => some (a + b)
  | _, _ => none

/-- JS `*` with the same `NaN` propagation as `jsAdd`. -/
def jsMul : Option ℚ → Option ℚ → Option ℚ
  | some a, some b => some (a * b)
  | _, _ => none

/-- `loadFood`: on success of `GET /foods/{id}` the component stores
`{ ...data, formattedPrice: formatValue(data.price) }` and
`data.extras.map(extra => ({ ...extra, quantity: 0 }))`.  Returns the new
`(food, extras)` state pair. -/
def loadFood (data : FoodData) : Food × List Extra :=
  (⟨some data.id, some data.name, some data.description, some data.price,
     some data.image_url, some (formatValue (some data.price)),
     some data.extras⟩,
   data.extras.map fun extra => { extra with quantity := 0 })

/-- The resolved value of `await api.get('/favorites/id')`: an axios-style
response object whose `data` field carries the favorite record when one
exists and is `null`/empty otherwise. -/
structure FavoriteResponse where
  data : Option FoodData
deriving DecidableEq

/-- JS truthiness of the resolved response object `favorite` in
`loadFavorite`: a JS object value is always truthy, whatever its `data`
holds. -/
def jsTruthy (_ : FavoriteResponse) : Bool :=
  true

/-- `loadFavorite`: awaits `GET /favorites/{id}` and runs
`if (favorite) setIsFavorite(oldState => !oldState)` on the resolved value.
Returns the new flag given the current one. -/
def loadFavorite (favorite : FavoriteResponse) (isFavorite : Bool) : Bool :=
  if jsTruthy favorite then !isFavorite else isFavorite

/-- `useState(false)`: the favorite flag at screen entry. -/
def initialIsFavorite : Bool :=
  false

/-- `handleIncrementExtra(id)`: map over the extras, adding 1 to the quantity
of an extra whose id matches. -/
def handleIncrementExtra (id : Int) (oldExtras : List Extra) : List Extra :=
  oldExtras.map fun extra =>
    if extra.id = id then { extra with quantity := extra.quantity + 1 } else extra

/-- `handleDecrementExtra(id)`: map over the extras, replacing a matching
extra's quantity by `quantity >= 1 ? quantity - 1 : quantity`. -/
def handleDecrementExtra (id : Int) (oldExtras : List Extra) : List Extra :=
  oldExtras.map fun extra =>
    if extra.id = id then
      { extra with quantity := if extra.quantity ≥ 1 then extra.quantity - 1 else extra.quantity }
    else extra

/-- `useState(1)`: the order quantity at screen entry. -/
def initialFoodQuantity : Int :=
  1

/-- `handleIncrementFood`: `oldQuantity + 1`. -/
def handleIncrementFood (oldQuantity : Int) : Int :=
  oldQuantity + 1

/-- `handleDecrementFood`: `oldQuantity > 1 ? oldQuantity - 1 : oldQuantity`. -/
def handleDecrementFood (oldQuantity : Int) : Int :=
  if oldQuantity > 1 then oldQuantity - 1 else oldQuantity

/-- The order payload assembled by `handleFinishOrder`: exactly the fields
`{ product_id, name, description, price, thumbnail_url, extras }`. -/
structure OrderPayload where
  product_id : Option Int
  name : Option String
  description : Option String
  price : Option ℚ
  thumbnail_url : Option String
  extras : List Extra
deriving DecidableEq

/-- The HTTP requests the screen issues through the `api` client. -/
inductive ApiRequest where
  | deleteFavorite (id : Option Int)
  | postFavorite (food : Food)
  | postOrder (payload : OrderPayload)
deriving DecidableEq

/-- Outcome of a fire-and-forget network call; the source discards the
promise, so no handler ever inspects this. -/
inductive RequestOutcome where
  | success
  | failure
deriving DecidableEq

/-- `toggleFavorite`: issues `DELETE favorites/{food.id}` when the flag is
set, otherwise `POST favorites` with the full food record, then flips the
flag with `setIsFavorite(oldState => !oldState)`.  The promise of the request
is discarded, so the (later) `outcome` cannot reach the flip; it is threaded
through as an explicit unused argument so that independence from it can be
stated. -/
def toggleFavorite (isFavorite : Bool) (food : Food) (_outcome : RequestOutcome) :
    ApiRequest × Bool :=
  (if isFavorite then ApiRequest.deleteFavorite food.id else ApiRequest.postFavorite food,
   !isFavorite)

/-- `reduce((accumulator, extra) => accumulator + extra.quantity * extra.value, 0)`
from `cartTotal`. -/
def totalExtras (extras : List Extra) : ℚ :=
  extras.foldl (fun accumulator extra => accumulator + extra.quantity * extra.value) 0

/-- The numeric value `(totalExtras + totalFood) * foodQuantity` computed by
`cartTotal`, in JS arithmetic: `totalFood = food.price` may be `undefined`,
in which case the result is `NaN` (`none`). -/
def cartTotalValue (food : Food) (extras : List Extra) (foodQuantity : Int) : Option ℚ :=
  jsMul (jsAdd (some (totalExtras extras)) food.price) (some (foodQuantity : ℚ))

/-- `cartTotal`: `formatValue((totalExtras + totalFood) * foodQuantity)`. -/
def cartTotal (food : Food) (extras : List Extra) (foodQuantity : Int) : String :=
  formatValue (cartTotalValue food extras foodQuantity)

/-- `handleFinishOrder`: assembles
`{ product_id: id, name, description, price, thumbnail_url: image_url, extras }`
from the current food and extras, posts it to `orders`, and navigates to
`'DashboardStack'`. -/
def handleFinishOrder (food : Food) (extras : List Extra) : ApiRequest × String :=
  (ApiRequest.postOrder
    ⟨food.id, food.name, food.description, food.price, food.image_url, extras⟩,
   "DashboardStack")

/-- The component's `useState` cells gathered into one record; each handler
touches only the cell its `set...` call names. -/
structure ComponentState where
  food : Food
  extras : List Extra
  isFavorite : Bool
  foodQuantity : Int
deriving DecidableEq

/-- `handleIncrementExtra` at the state level: only `setExtras` is called. -/
def incrementExtraState (id : Int) (s : ComponentState) : ComponentState :=
  { s with extras := handleIncrementExtra id s.extras }

/-- `handleDecrementExtra` at the state level: only `setExtras` is called. -/
def decrementExtraState (id : Int) (s : ComponentState) : ComponentState :=
  { s with extras := handleDecrementExtra id s.extras }

/-- A user event on the extras list: a press on one extra's plus or minus
icon, carrying that extra's id. -/
inductive ExtraEvent where
  | inc (id : Int)
  | dec (id : Int)
deriving DecidableEq

/-- One extras event dispatched to the corresponding handler. -/
def applyExtraEvent (ev : ExtraEvent) (l : List Extra) : List Extra :=
  match ev with
  | .inc id => handleIncrementExtra id l
  | .dec id => handleDecrementExtra id l

/-- A sequence of extras events, applied in order. -/
def applyExtraEvents (evs : List ExtraEvent) (l : List Extra) : List Extra :=
  evs.foldl (fun l ev => applyExtraEvent ev l) l

/-- A press on the order-quantity plus or minus icon. -/
inductive FoodQtyEvent where
  | inc
  | dec
deriving DecidableEq

/-- One order-quantity event dispatched to the corresponding handler. -/
def applyFoodQtyEvent (ev : FoodQtyEvent) (q : Int) : Int :=
  match ev with
  | .inc => handleIncrementFood q
  | .dec => handleDecrementFood q

/-- A sequence of order-quantity events, applied in order. -/
def applyFoodQtyEvents (evs : List FoodQtyEvent) (q : Int) : Int :=
  evs.foldl (fun q ev => applyFoodQtyEvent ev q) q

/-! ## Helper lemmas -/

/-- The `reduce` in `cartTotal`, with an arbitrary accumulator, computes the
accumulator plus the sum of `quantity * value` over the list. -/
theorem foldl_totalExtras (l : List Extra) (a : ℚ) :
    l.foldl (fun (accumulator : ℚ) extra => accumulator + extra.quantity * extra.value) a =
      a + (l.map fun extra => (extra.quantity : ℚ) * extra.value).sum := by
  induction l generalizing a with
  | nil => simp
  | cons e t ih => rw [List.foldl_cons, ih, List.map_cons, List.sum_cons, add_assoc]

/-- `totalExtras` is the sum of `quantity * value` over the extras. -/
theorem totalExtras_eq_sum (l : List Extra) :
    totalExtras l = (l.map fun extra => (extra.quantity : ℚ) * extra.value).sum := by
  simpa using foldl_totalExtras l 0

/-- `handleIncrementExtra` preserves non-negativity of all quantities. -/
theorem quantity_nonneg_inc (id : Int) (l : List Extra)
    (h : ∀ e ∈ l, 0 ≤ e.quantity) :
    ∀ e ∈ handleIncrementExtra id l, 0 ≤ e.quantity := by
  intro e he
  rw [handleIncrementExtra, List.mem_map] at he
  obtain ⟨a, ha, rfl⟩ := he
  have ha' := h a ha
  by_cases hid : a.id = id
  · simp only [hid, if_pos]
    omega
  · simpa [hid] using ha'

/-- `handleDecrementExtra` preserves non-negativity of all quantities. -/
theorem quantity_nonneg_dec (id : Int) (l : List Extra)
    (h : ∀ e ∈ l, 0 ≤ e.quantity) :
    ∀ e ∈ handleDecrementExtra id l, 0 ≤ e.quantity := by
  intro e he
  rw [handleDecrementExtra, List.mem_map] at he
  obtain ⟨a, ha, rfl⟩ := he
  have ha' := h a ha
  by_cases hid : a.id = id
  · simp only [hid, if_pos]
    split_ifs <;> omega
  · simpa [hid] using ha'

/-- Any single extras event preserves non-negativity of all quantities. -/
theorem quantity_nonneg_event (ev : ExtraEvent) (l : List Extra)
    (h : ∀ e ∈ l, 0 ≤ e.quantity) :
    ∀ e ∈ applyExtraEvent ev l, 0 ≤ e.quantity := by
  cases ev with
  | inc id => exact quantity_nonneg_inc id l h
  | dec id => exact quantity_nonneg_dec id l h

/-- Any sequence of extras events preserves non-negativity of all
quantities. -/
theorem quantity_nonneg_events (evs : List ExtraEvent) (l : List Extra)
    (h : ∀ e ∈ l, 0 ≤ e.quantity) :
    ∀ e ∈ applyExtraEvents evs l, 0 ≤ e.quantity := by
  induction evs generalizing l with
  | nil => simpa [applyExtraEvents] using h
  | cons ev t ih =>
    intro e he
    rw [applyExtraEvents, List.foldl_cons] at he
    exact ih _ (quantity_nonneg_event ev l h) e he

/-- Right after `loadFood` every extra's quantity is 0. -/
theorem loadFood_extras_quantity_zero (data : FoodData) :
    ∀ e ∈ (loadFood data).2, e.quantity = 0 := by
  intro e he
  simp only [loadFood, List.mem_map] at he
  obtain ⟨a, _, rfl⟩ := he
  rfl

/-- Any single order-quantity event preserves the lower bound 1. -/
theorem one_le_applyFoodQtyEvent (ev : FoodQtyEvent) (q : Int) (h : 1 ≤ q) :
    1 ≤ applyFoodQtyEvent ev q := by
  cases ev with
  | inc =>
    simp only [applyFoodQtyEvent, handleIncrementFood]
    omega
  | dec =>
    simp only [applyFoodQtyEvent, handleDecrementFood]
    split_ifs <;> omega

/-- Any sequence of order-quantity events preserves the lower bound 1. -/
theorem one_le_applyFoodQtyEvents (evs : List FoodQtyEvent) (q : Int) (h : 1 ≤ q) :
    1 ≤ applyFoodQtyEvents evs q := by
  induction evs generalizing q with
  | nil => simpa [applyFoodQtyEvents] using h
  | cons ev t ih =>
    rw [applyFoodQtyEvents, List.foldl_cons]
    exact ih _ (one_le_applyFoodQtyEvent ev q h)

/-! ## Example inputs used by the witnesses -/

/-- A loaded food record with unit price 10.00. -/
def exampleFood : Food :=
  ⟨some 1, some "Ao molho", some "Macarrao ao molho", some 10, some "image-url",
   some (formatValue (some 10)), some []⟩

/-- An extra with unit value 2.00 and quantity 3. -/
def exampleExtra : Extra :=
  ⟨1, "Bacon", 2, 3⟩

/-- A `GET /foods/{id}` response carrying one extra. -/
def exampleFoodData : FoodData :=
  ⟨1, "Ao molho", "Macarrao ao molho", 10, "image-url", [⟨1, "Bacon", 2, 5⟩]⟩

/-! ## Claims -/

/-- C1: for every loaded food with unit price `p`, every extras list and
every order quantity `q`, `cartTotal` returns the currency-formatted value of
`(Σ extra.quantity * extra.value + p) * q`. -/
theorem cartTotal_formula (food : Food) (p : ℚ) (extras : List Extra) (q : Int)
    (h : food.price = some p) :
    cartTotal food extras q =
      formatValue (some
        (((extras.map fun extra => (extra.quantity : ℚ) * extra.value).sum + p) * (q : ℚ))) := by
  simp [cartTotal, cartTotalValue, jsAdd, jsMul, h, totalExtras_eq_sum]

/-- Witness for C1 at the spec's concrete input: `p = 10.00`, one extra with
`value = 2.00` and `quantity = 3`, order quantity 2; the total is 32.00. -/
theorem cartTotal_formula_witness :
    exampleFood.price = some 10 ∧
    cartTotal exampleFood [exampleExtra] 2 =
      formatValue (some
        ((([exampleExtra].map fun extra => (extra.quantity : ℚ) * extra.value).sum + 10) *
          ((2 : Int) : ℚ))) ∧
    cartTotal exampleFood [exampleExtra] 2 = "R$ 32,00" := by
  refine ⟨rfl, cartTotal_formula exampleFood 10 [exampleExtra] 2 rfl, ?_⟩
  rw [cartTotal_formula exampleFood 10 [exampleExtra] 2 rfl]
  norm_num [exampleExtra, formatValue, Rat.floor_def']
  rfl

/-- C2: starting from the loaded state (all extra quantities 0), every
sequence of increment/decrement events keeps every extra's quantity ≥ 0; in
particular a decrement on an extra whose quantity is 0 leaves that extra
unchanged. -/
theorem extras_quantity_nonneg (data : FoodData) (evs : List ExtraEvent) :
    (∀ e ∈ applyExtraEvents evs (loadFood data).2, 0 ≤ e.quantity) ∧
    (∀ (id : Int) (l : List Extra) (i : Nat) (e : Extra),
      l[i]? = some e → e.quantity = 0 → (handleDecrementExtra id l)[i]? = some e) := by
  constructor
  · exact quantity_nonneg_events evs _
      (fun e he => (loadFood_extras_quantity_zero data e he).ge)
  · intro id l i e hi hq
    rw [handleDecrementExtra, List.getElem?_map, hi, Option.map_some']
    by_cases hid : e.id = id
    · rw [if_pos hid]
      have hfloor : (if e.quantity ≥ 1 then e.quantity - 1 else e.quantity) = e.quantity := by
        omega
      rw [hfloor]
    · rw [if_neg hid]

/-- Witness for C2: one decrement event on the freshly loaded example leaves
the quantity at 0, and a direct decrement on a quantity-0 extra is the
identity. -/
theorem extras_quantity_nonneg_witness :
    (0 : Int) ≤ (Extra.mk 1 "Bacon" 2 0).quantity ∧
    (handleDecrementExtra 1 [Extra.mk 1 "Bacon" 2 0])[0]? = some (Extra.mk 1 "Bacon" 2 0) := by
  constructor
  · refine (extras_quantity_nonneg exampleFoodData [ExtraEvent.dec 1]).1 (Extra.mk 1 "Bacon" 2 0) ?_
    simp [applyExtraEvents, applyExtraEvent, loadFood, exampleFoodData, handleDecrementExtra]
  · exact (extras_quantity_nonneg exampleFoodData []).2 1 [Extra.mk 1 "Bacon" 2 0] 0
      (Extra.mk 1 "Bacon" 2 0) rfl rfl

/-- C3: starting from the initial order quantity 1, every sequence of
increment/decrement events keeps the order quantity ≥ 1; in particular a
decrement at 1 leaves it at 1. -/
theorem foodQuantity_ge_one (evs : List FoodQtyEvent) :
    1 ≤ applyFoodQtyEvents evs initialFoodQuantity ∧
    handleDecrementFood 1 = 1 :=
  ⟨one_le_applyFoodQtyEvents evs initialFoodQuantity le_rfl, rfl⟩

/-- C10: the numeric cart total is defined exactly when `food.price` is
present; on the initial state `{} as Food` it is `NaN` (`none`), which is
what gets formatted. -/
theorem cartTotal_unloaded_nan (food : Food) (extras : List Extra) (q : Int) :
    (cartTotalValue food extras q).isSome = food.price.isSome ∧
    cartTotalValue emptyFood extras q = none ∧
    cartTotal emptyFood extras q = "R$ NaN" := by
  refine ⟨?_, ?_, ?_⟩
  · cases hp : food.price <;> simp [cartTotalValue, jsAdd, jsMul, hp]
  · simp [cartTotalValue, jsAdd, jsMul, emptyFood]
  · simp [cartTotal, cartTotalValue, jsAdd, jsMul, emptyFood, formatValue]

/-- C4: one call to `toggleFavorite` flips the favorite flag exactly once,
independently of the network call's outcome; a set flag yields a delete
request keyed by the food id, an unset flag a create request carrying the
full food record. -/
theorem toggleFavorite_spec (food : Food) (outcome : RequestOutcome) :
    (∀ fav : Bool, (toggleFavorite fav food outcome).2 = !fav) ∧
    (toggleFavorite true food outcome).1 = ApiRequest.deleteFavorite food.id ∧
    (toggleFavorite false food outcome).1 = ApiRequest.postFavorite food :=
  ⟨fun _ => rfl, rfl, rfl⟩

/-- C5: the payload posted by `handleFinishOrder` has exactly the fields
`{product_id, name, description, price, thumbnail_url, extras}`, taken from
the current food record (`product_id` from `id`, `thumbnail_url` from
`image_url`) and the current extras list. -/
theorem handleFinishOrder_payload (s : ComponentState) (payload : OrderPayload)
    (h : (handleFinishOrder s.food s.extras).1 = ApiRequest.postOrder payload) :
    payload.product_id = s.food.id ∧ payload.name = s.food.name ∧
    payload.description = s.food.description ∧ payload.price = s.food.price ∧
    payload.thumbnail_url = s.food.image_url ∧ payload.extras = s.extras := by
  have h' : OrderPayload.mk s.food.id s.food.name s.food.description s.food.price
      s.food.image_url s.extras = payload := by
    injection h
  subst h'
  exact ⟨rfl, rfl, rfl, rfl, rfl, rfl⟩

/-- A component state used by the witnesses: loaded example food, one extra,
flag unset, order quantity 1. -/
def exampleState : ComponentState :=
  ⟨exampleFood, [⟨1, "Bacon", 2, 3⟩], false, 1⟩

/-- The payload `handleFinishOrder` builds from `exampleState`. -/
def examplePayload : OrderPayload :=
  ⟨exampleState.food.id, exampleState.food.name, exampleState.food.description,
   exampleState.food.price, exampleState.food.image_url, exampleState.extras⟩

/-- Witness for C5 at `exampleState`. -/
theorem handleFinishOrder_payload_witness :
    examplePayload.product_id = exampleState.food.id ∧
    examplePayload.name = exampleState.food.name ∧
    examplePayload.description = exampleState.food.description ∧
    examplePayload.price = exampleState.food.price ∧
    examplePayload.thumbnail_url = exampleState.food.image_url ∧
    examplePayload.extras = exampleState.extras :=
  handleFinishOrder_payload exampleState examplePayload rfl

/-- C6 (code evaluated at the failing input): a favorite fetch that resolves
with an empty body — no favorite record — still flips the initially-false
flag to `true`, because `if (favorite)` tests the response object, which is
always truthy, not the record inside it. -/
theorem loadFavorite_flips_on_empty_response :
    loadFavorite ⟨none⟩ initialIsFavorite = true :=
  rfl

/-- C7: `handleIncrementExtra id` adds 1 to the quantity of an extra whose
id matches, leaves every other extra unchanged, and is the identity when no
extra has the given id. -/
theorem handleIncrementExtra_spec (l : List Extra) (id : Int) :
    (∀ (i : Nat) (e : Extra), l[i]? = some e →
      (handleIncrementExtra id l)[i]? =
        some (if e.id = id then { e with quantity := e.quantity + 1 } else e)) ∧
    ((∀ e ∈ l, e.id ≠ id) → handleIncrementExtra id l = l) := by
  constructor
  · intro i e hi
    rw [handleIncrementExtra, List.getElem?_map, hi, Option.map_some']
  · intro h
    rw [handleIncrementExtra]
    refine (List.map_congr_left ?_).trans l.map_id
    intro e he
    rw [if_neg (h e he)]
    rfl

/-- Witness for C7: incrementing id 1 on a one-element list bumps its
quantity; incrementing an absent id 5 is a no-op. -/
theorem handleIncrementExtra_spec_witness :
    (handleIncrementExtra 1 [Extra.mk 1 "Bacon" 2 0])[0]? = some (Extra.mk 1 "Bacon" 2 1) ∧
    handleIncrementExtra 5 [Extra.mk 1 "Bacon" 2 0] = [Extra.mk 1 "Bacon" 2 0] := by
  constructor
  · rw [(handleIncrementExtra_spec [Extra.mk 1 "Bacon" 2 0] 1).1 0 (Extra.mk 1 "Bacon" 2 0) rfl]
    norm_num
  · refine (handleIncrementExtra_spec [Extra.mk 1 "Bacon" 2 0] 5).2 ?_
    intro e he
    rw [List.mem_singleton] at he
    subst he
    decide

/-- C8: the extras handlers change nothing but quantities — the rest of the
component state, the length of the extras list and every extra's id, name
and value are preserved, and an extra whose id differs from the argument is
wholly unchanged. -/
theorem extras_handlers_frame (s : ComponentState) (id : Int) :
    (incrementExtraState id s).food = s.food ∧
    (incrementExtraState id s).isFavorite = s.isFavorite ∧
    (incrementExtraState id s).foodQuantity = s.foodQuantity ∧
    (decrementExtraState id s).food = s.food ∧
    (decrementExtraState id s).isFavorite = s.isFavorite ∧
    (decrementExtraState id s).foodQuantity = s.foodQuantity ∧
    (handleIncrementExtra id s.extras).length = s.extras.length ∧
    (handleDecrementExtra id s.extras).length = s.extras.length ∧
    (∀ (i : Nat) (e : Extra), s.extras[i]? = some e →
      ∃ e₁ e₂, (handleIncrementExtra id s.extras)[i]? = some e₁ ∧
        (handleDecrementExtra id s.extras)[i]? = some e₂ ∧
        e₁.id = e.id ∧ e₁.name = e.name ∧ e₁.value = e.value ∧
        e₂.id = e.id ∧ e₂.name = e.name ∧ e₂.value = e.value ∧
        (e.id ≠ id → e₁ = e ∧ e₂ = e)) := by
  refine ⟨rfl, rfl, rfl, rfl, rfl, rfl, ?_, ?_, ?_⟩
  · rw [handleIncrementExtra, List.length_map]
  · rw [handleDecrementExtra, List.length_map]
  · intro i e hi
    by_cases hid : e.id = id
    · refine ⟨{ e with quantity := e.quantity + 1 },
        { e with quantity := if e.quantity ≥ 1 then e.quantity - 1 else e.quantity },
        ?_, ?_, rfl, rfl, rfl, rfl, rfl, rfl, fun hne => absurd hid hne⟩
      · rw [handleIncrementExtra, List.getElem?_map, hi, Option.map_some', if_pos hid]
      · rw [handleDecrementExtra, List.getElem?_map, hi, Option.map_some', if_pos hid]
    · refine ⟨e, e, ?_, ?_, rfl, rfl, rfl, rfl, rfl, rfl, fun _ => ⟨rfl, rfl⟩⟩
      · rw [handleIncrementExtra, List.getElem?_map, hi, Option.map_some', if_neg hid]
      · rw [handleDecrementExtra, List.getElem?_map, hi, Option.map_some', if_neg hid]

/-- Witness for C8 at `exampleState`. -/
theorem extras_handlers_frame_witness :
    (incrementExtraState 1 exampleState).foodQuantity = exampleState.foodQuantity ∧
    (∃ e₁ e₂, (handleIncrementExtra 1 exampleState.extras)[0]? = some e₁ ∧
      (handleDecrementExtra 1 exampleState.extras)[0]? = some e₂ ∧
      e₁.name = "Bacon" ∧ e₂.name = "Bacon") := by
  obtain ⟨h1, h2, h3, h4, h5, h6, h7, h8, h9⟩ := extras_handlers_frame exampleState 1
  obtain ⟨e₁, e₂, he₁, he₂, _, hname1, _, _, hname2, _, _⟩ :=
    h9 0 (Extra.mk 1 "Bacon" 2 3) rfl
  exact ⟨h3, e₁, e₂, he₁, he₂, hname1.trans rfl, hname2.trans rfl⟩

/-- C9: incrementing then decrementing the same id restores the extras list,
given the data-model invariant that quantities are non-negative (needed for
the matching extras). -/
theorem increment_decrement_roundtrip (l : List Extra) (id : Int)
    (h : ∀ e ∈ l, e.id = id → 0 ≤ e.quantity) :
    handleDecrementExtra id (handleIncrementExtra id l) = l := by
  rw [handleIncrementExtra, handleDecrementExtra, List.map_map]
  refine (List.map_congr_left ?_).trans l.map_id
  intro e he
  by_cases hid : e.id = id
  · have hq := h e he hid
    simp only [Function.comp, if_pos hid]
    have hfloor :
        (if e.quantity + 1 ≥ 1 then e.quantity + 1 - 1 else e.quantity + 1) = e.quantity := by
      omega
    rw [hfloor]
    rfl
  · simp only [Function.comp, if_neg hid]
    rfl

/-- Witness for C9: round trip on a one-element list with quantity 0. -/
theorem increment_decrement_roundtrip_witness :
    handleDecrementExtra 1 (handleIncrementExtra 1 [Extra.mk 1 "Bacon" 2 0]) =
      [Extra.mk 1 "Bacon" 2 0] := by
  refine increment_decrement_roundtrip [Extra.mk 1 "Bacon" 2 0] 1 ?_
  intro e he
  rw [List.mem_singleton] at he
  subst he
  intro _
  decide

end FoodDetails
